import Mathlib

/-
  Verification development for the CityScape NYC guide assistant
  (CityScape_Source_Code/query_data.py).

  The Python program is embedded shallowly:
  - the completion service (`self.model.invoke`) is an oracle
    `model : Prompt → String`, where `Prompt` is an inductive datatype
    recording which of the prompt templates of query_data.py was formatted
    and with which arguments (the template's free-text scaffolding is
    opaque data sent to the external service, so only the template identity
    and its inputs are modelled);
  - the vector store (`self.db.similarity_search_with_relevance_scores`)
    is an oracle `db : String → List (String × ℚ)` returning passages with
    relevance scores (scores are modelled as rationals; the code only ever
    compares them against the literal threshold 0.7);
  - the two JSON files are modelled by explicit file states threaded
    through every operation (`Env`);
  - Python dicts are insertion-ordered association lists without duplicate
    keys, built only through `dictSet`;
  - Python string operations (strip, lower, split, startswith, replace,
    substring containment) are re-implemented structurally on `List Char`
    so that every definition reduces inside the kernel.
-/

namespace CityScape

/-! ## Python primitives -/

/-- Python dict assignment `d[k] = v`: overwrite in place if the key is
present, otherwise append at the end (insertion order). -/
def dictSet {α : Type} (d : List (String × α)) (k : String) (v : α) :
    List (String × α) :=
  if d.any (fun kv => kv.1 == k) then
    d.map (fun kv => if kv.1 == k then (k, v) else kv)
  else d ++ [(k, v)]

/-- Python `d.get(k)` / `d[k]`: first (and, for dicts, only) binding. -/
def dictGet {α : Type} (d : List (String × α)) (k : String) : Option α :=
  (d.find? (fun kv => kv.1 == k)).map (fun kv => kv.2)

/-- Python `str.lower` restricted to ASCII letters, which is all the
source ever lowercases (keyword phrases, classification values). -/
def py_lower_char : Char → Char
  | 'A' => 'a' | 'B' => 'b' | 'C' => 'c' | 'D' => 'd' | 'E' => 'e' | 'F' => 'f'
  | 'G' => 'g' | 'H' => 'h' | 'I' => 'i' | 'J' => 'j' | 'K' => 'k' | 'L' => 'l'
  | 'M' => 'm' | 'N' => 'n' | 'O' => 'o' | 'P' => 'p' | 'Q' => 'q' | 'R' => 'r'
  | 'S' => 's' | 'T' => 't' | 'U' => 'u' | 'V' => 'v' | 'W' => 'w' | 'X' => 'x'
  | 'Y' => 'y' | 'Z' => 'z'
  | c => c

/-- Python `str.lower()`. -/
def py_lower (s : String) : String := String.mk (s.data.map py_lower_char)

/-- Whitespace stripping on a character list, from both ends. -/
def py_strip_list (l : List Char) : List Char :=
  ((l.dropWhile Char.isWhitespace).reverse.dropWhile Char.isWhitespace).reverse

/-- Python `str.strip()`. -/
def py_strip (s : String) : String := String.mk (py_strip_list s.data)

/-- Does `l` start with `pat`? (List-level `str.startswith`.) -/
def list_starts (pat s : List Char) : Bool :=
  match pat, s with
  | [], _ => true
  | _ :: _, [] => false
  | a :: ps, b :: ss => a == b && list_starts ps ss

/-- Python `s.startswith(pat)`. -/
def py_startswith (s pat : String) : Bool := list_starts pat.data s.data

/-- Does `l` contain `pat` as a contiguous substring? -/
def list_has_sub (pat : List Char) : List Char → Bool
  | [] => pat.isEmpty
  | c :: rest => list_starts pat (c :: rest) || list_has_sub pat rest

/-- Python `pat in s` for strings. -/
def str_contains (s pat : String) : Bool := list_has_sub pat.data s.data

/-- Removal of every non-overlapping occurrence of `pat`, left to right,
with explicit fuel so that the definition is structural.  Each step either
consumes at least one character of the input, so `fuel = length` is enough. -/
def remove_all_aux (pat : List Char) : Nat → List Char → List Char
  | 0, _ => []
  | Nat.succ fuel, l =>
    match l with
    | [] => []
    | c :: rest =>
      if list_starts pat l then remove_all_aux pat fuel (List.drop pat.length l)
      else c :: remove_all_aux pat fuel rest

/-- Python `s.replace(pat, '')` for a non-empty `pat` (every call site in
query_data.py removes a fixed non-empty key such as `Category:`). -/
def py_remove (s pat : String) : String :=
  if pat.data.isEmpty then s
  else String.mk (remove_all_aux pat.data s.data.length s.data)

/-- Splitting at every occurrence of one character; Python `s.split(sep)`
for a one-character separator (`'\n'` and `':'` are the only ones used). -/
def py_split_char (sep : Char) : List Char → List (List Char)
  | [] => [[]]
  | c :: rest =>
    let r := py_split_char sep rest
    if c == sep then [] :: r
    else (c :: r.headD []) :: r.tail

/-- Python `s.split('\n')`. -/
def py_split_nl (s : String) : List String :=
  (py_split_char '\x0a' s.data).map String.mk

/-- Python `line.split(':', 1)`: the part before the first colon and the
part after it (the whole line and `[]` if there is no colon). -/
def split_first_colon : List Char → List Char × List Char
  | [] => ([], [])
  | c :: rest =>
    if c == ':' then ([], rest)
    else
      let p := split_first_colon rest
      (c :: p.1, p.2)

/-- Python `'sep'.join(parts)`. -/
def join_sep (sep : String) : List String → String
  | [] => ""
  | [x] => x
  | x :: xs => x ++ sep ++ join_sep sep xs

/-- Python truthiness of an optional string (`None` and `''` are falsy). -/
def opt_truthy : Option String → Bool
  | some v => v != ""
  | none => false

/-! ## Data model -/

/-- The structured intent record built by `classify_query`
(query_data.py, lines 302-311): seven string-valued fields. -/
structure Classification where
  category : String
  intent : String
  key_terms : String
  is_preference : String
  preference_type : String
  preference_value : String
  is_generic_food_question : String
deriving DecidableEq

/-- The requests that query_data.py sends to the completion service.  Each
constructor is one of the prompt templates of the source, carrying exactly
the values the source interpolates into that template: the classification
prompt (line 298), the venue-info extraction prompt (line 184), the initial
recommendation prompt (line 356), the follow-up prompt (line 379), the
plan-summary prompt (line 253) and the day-plan prompt (line 286). -/
inductive Prompt where
  | classification (query : String)
  | extraction (context : String)
  | initial (context question category intent key_terms : String)
      (preferences : List (String × Option String))
  | follow_up (context previous_response question category intent : String)
      (preferences : List (String × Option String))
  | summary (venues : List (List (String × String)))
  | day_plan (venues : List (List (String × String)))
deriving DecidableEq

/-- State of the persisted preferences file `user_preferences.json`:
absent, present but not valid JSON, or a stored JSON object (JSON objects
have no duplicate keys; values are strings or `null`). -/
inductive PrefFile where
  | missing
  | corrupt
  | stored (prefs : List (String × Option String))
deriving DecidableEq

/-- State of the persisted plan file `nyc_plan.json`: absent, present but
not valid JSON, a JSON dict containing the key `venues` (the only shape
`load_plan` accepts), or valid JSON of any other shape. -/
inductive PlanFile where
  | missing
  | corrupt
  | storedPlan (venues : List (List (String × String)))
  | storedOther
deriving DecidableEq

/-- The two persisted files threaded through every operation. -/
structure Env where
  pref_file : PrefFile
  plan_file : PlanFile
deriving DecidableEq

/-- The in-memory state of one `NYCGuide` instance (query_data.py,
lines 140-149).  `plan` is the list bound to the `venues` key of
`self.plan` (the key is always present: `__init__` starts from
`{"venues": []}` and `load_plan` only accepts dicts containing it); each
venue is the Python dict built in `add_to_plan`. -/
structure GuideState where
  last_response : Option String
  last_context : Option String
  last_classification : Option Classification
  plan : List (List (String × String))
  preferences : List (String × Option String)
deriving DecidableEq

/-- The field values of `self.last_*` and `self.plan` set by `__init__`
before the two load calls run. -/
def init_state : GuideState :=
  { last_response := none, last_context := none, last_classification := none,
    plan := [], preferences := [] }

/-! ## Persistence (query_data.py, lines 151-181) -/

/-- The default preferences dict `{"cuisine": None}` (line 156). -/
def default_preferences : List (String × Option String) := [("cuisine", none)]

/-- `save_preferences` (lines 159-161): whole-file rewrite. -/
def save_preferences (s : GuideState) (e : Env) : Env :=
  { e with pref_file := PrefFile.stored s.preferences }

/-- `load_preferences` (lines 151-157): a parseable JSON file is accepted
as-is; a missing or unparseable file resets to the default, which is
immediately saved. -/
def load_preferences (s : GuideState) (e : Env) : GuideState × Env :=
  match e.pref_file with
  | PrefFile.stored p => ({ s with preferences := p }, e)
  | _ =>
    let s2 := { s with preferences := default_preferences }
    (s2, save_preferences s2 e)

/-- `save_plan` (lines 175-177): whole-file rewrite. -/
def save_plan (s : GuideState) (e : Env) : Env :=
  { e with plan_file := PlanFile.storedPlan s.plan }

/-- `load_plan` (lines 163-173): a JSON dict containing `venues` is
accepted; other valid JSON resets the in-memory plan WITHOUT saving; a
missing or unparseable file resets the plan and immediately saves it. -/
def load_plan (s : GuideState) (e : Env) : GuideState × Env :=
  match e.plan_file with
  | PlanFile.storedPlan vs => ({ s with plan := vs }, e)
  | PlanFile.storedOther => ({ s with plan := [] }, e)
  | _ =>
    let s2 := { s with plan := [] }
    (s2, save_plan s2 e)

/-- `update_preference` (lines 179-181): in-memory dict assignment
followed by an immediate full-file rewrite. -/
def update_preference (pt : String) (v : Option String) (s : GuideState)
    (e : Env) : GuideState × Env :=
  let s2 := { s with preferences := dictSet s.preferences pt v }
  (s2, save_preferences s2 e)

/-- `NYCGuide.__init__` (lines 140-149): empty session memory and plan,
then `load_preferences` and `load_plan`. -/
def guide_init (e : Env) : GuideState × Env :=
  let r := load_preferences init_state e
  load_plan r.1 r.2

/-! ## Classification (query_data.py, lines 297-329) -/

/-- The default field values of the classification dict (lines 303-311). -/
def default_classification : Classification :=
  { category := "", intent := "", key_terms := "",
    is_preference := "no", preference_type := "none",
    preference_value := "none", is_generic_food_question := "none" }

/-- One iteration of the line loop of `classify_query` (lines 313-327):
the first matching `startswith` branch sets its field, other lines leave
the record unchanged. -/
def parse_class_line (c : Classification) (line : String) : Classification :=
  if py_startswith line "Category:" then
    { c with category := py_strip (py_remove line "Category:") }
  else if py_startswith line "Intent:" then
    { c with intent := py_strip (py_remove line "Intent:") }
  else if py_startswith line "Key Terms:" then
    { c with key_terms := py_strip (py_remove line "Key Terms:") }
  else if py_startswith line "Is Preference:" then
    { c with is_preference := py_lower (py_strip (py_remove line "Is Preference:")) }
  else if py_startswith line "Preference Type:" then
    { c with preference_type := py_lower (py_strip (py_remove line "Preference Type:")) }
  else if py_startswith line "Preference Value:" then
    { c with preference_value := py_lower (py_strip (py_remove line "Preference Value:")) }
  else if py_startswith line "Is Generic Food Question:" then
    { c with is_generic_food_question :=
        py_lower (py_strip (py_remove line "Is Generic Food Question:")) }
  else c

/-- The lines `classify_query` iterates over:
`response.content.strip().split('\n')` (line 302). -/
def classify_lines (text : String) : List String :=
  py_split_nl (py_strip text)

/-- The parsing part of `classify_query` applied to the raw completion
text (lines 302-329). -/
def parse_classification (text : String) : Classification :=
  (classify_lines text).foldl parse_class_line default_classification

/-- `classify_query` (lines 297-329): format the classification prompt,
invoke the completion service, parse the response line by line. -/
def classify_query (model : Prompt → String) (query : String) : Classification :=
  parse_classification (model (Prompt.classification query))

/-! ## Venue extraction and the plan (query_data.py, lines 183-237) -/

/-- One iteration of the parsing loop of `extract_venue_info`
(lines 204-207): lines containing a colon are split at the first colon and
stored as `info[key.strip().lower()] = value.strip()`. -/
def parse_info_line (info : List (String × String)) (line : String) :
    List (String × String) :=
  if str_contains line ":" then
    let p := split_first_colon line.data
    dictSet info (py_lower (py_strip (String.mk p.1))) (py_strip (String.mk p.2))
  else info

/-- `extract_venue_info` (lines 183-208): invoke the extraction prompt on
the stored context and parse the `Key: value` lines of the response. -/
def extract_venue_info (model : Prompt → String) (context : String) :
    List (String × String) :=
  (py_split_nl (model (Prompt.extraction context))).foldl parse_info_line []

/-- The case-insensitive deduplication key of a stored venue:
`v.get('name', '').lower()` (line 217). -/
def venue_name (v : List (String × String)) : String :=
  py_lower ((dictGet v "name").getD "")

/-- Fixed message of `add_to_plan` when no context exists (line 212). -/
def no_venue_msg : String :=
  "No venue to add to plan. Please ask about a place first."

/-- `add_to_plan` (lines 210-237).  Line 211 is the Python truthiness test
`if not self.last_context:`, which fails fast for both `None` and the
empty string.  `now` is the `datetime.now().isoformat()` timestamp
string.  In this embedding the completion oracle is total, so the
`except` branch of the source (which would leave the plan unmodified)
cannot fire. -/
def add_to_plan (model : Prompt → String) (now : String) (s : GuideState)
    (e : Env) : String × GuideState × Env :=
  if !(opt_truthy s.last_context) then (no_venue_msg, s, e)
  else
    let ctx := s.last_context.getD ""
    let info := extract_venue_info model ctx
    if s.plan.any (fun v => venue_name v == venue_name info) then
      (((dictGet info "name").getD "This venue") ++ " is already in your plan!",
       s, e)
    else
      let entry := dictSet (dictSet info "added_at" now) "context" ctx
      let s2 := { s with plan := s.plan ++ [entry] }
      ("Added " ++ ((dictGet info "name").getD "the venue") ++ " to your NYC plan!",
       s2, save_plan s2 e)

/-- The four-field projection used by both `get_plan_summary`
(lines 244-251) and `generate_day_plan` (lines 276-283). -/
def venue_project (v : List (String × String)) : List (String × String) :=
  [("name", (dictGet v "name").getD "Unknown Venue"),
   ("type", (dictGet v "type").getD "Unknown Type"),
   ("location", (dictGet v "location").getD "Location not specified"),
   ("budget", (dictGet v "budget").getD "Budget not specified")]

/-- `get_plan_summary` (lines 239-269); the completion oracle is total, so
the fallback `except` branch cannot fire here. -/
def get_plan_summary (model : Prompt → String) (s : GuideState) : String :=
  if s.plan = [] then
    "Your NYC plan is empty! Ask me about places you\x27d like to visit."
  else model (Prompt.summary (s.plan.map venue_project))

/-- `generate_day_plan` (lines 271-295), with its fixed banner prefix. -/
def generate_day_plan (model : Prompt → String) (s : GuideState) : String :=
  if s.plan = [] then "No venues saved in your plan!"
  else "\x0a🗽 Here\x27s a suggested day plan with your saved places:\x0a\x0a" ++
    model (Prompt.day_plan (s.plan.map venue_project))

/-! ## Orchestration (query_data.py, lines 331-397) -/

/-- The literal phrase list checked by `get_recommendations` (line 332),
`handle_follow_up` (line 370) and `is_follow_up_question` (line 392). -/
def plan_phrases : List String :=
  ["add to plan", "add it to", "save this", "adding it"]

/-- The shared short-circuit test
`any(phrase in query.lower() for phrase in [...])`. -/
def plan_add_trigger (q : String) : Bool :=
  plan_phrases.any (fun p => str_contains (py_lower q) p)

/-- The preference-statement test of line 338. -/
def pref_branch (c : Classification) : Bool :=
  c.is_preference == "yes" && c.preference_type == "cuisine"

/-- The acknowledgment returned for a cuisine preference statement
(line 340). -/
def pref_ack (v : String) : String :=
  "I\x27ve noted that you like " ++ v ++
    " food. I\x27ll remember this for future recommendations!"

/-- Python truthiness of `self.preferences['cuisine']` (line 344): the key
must be bound to a non-null, non-empty string.  (In every state the
program itself reaches the key is present, because `load_preferences`
installs the default dict.) -/
def cuisine_truthy (s : GuideState) : Bool :=
  match dictGet s.preferences "cuisine" with
  | some (some v) => v != ""
  | _ => false

/-- The stored cuisine value interpolated into the augmented query
(line 345); only read when `cuisine_truthy` holds. -/
def cuisine_val (s : GuideState) : String :=
  match dictGet s.preferences "cuisine" with
  | some (some v) => v
  | _ => ""

/-- The query text handed to retrieval (lines 342-345): augmented with
`"<preference> restaurant"` exactly when the category is Food and Dining
or Recommendations, the stored cuisine preference is truthy and the
question is flagged generic. -/
def enhanced_query (c : Classification) (s : GuideState) (query : String) :
    String :=
  if (c.category == "Food and Dining" || c.category == "Recommendations")
      && cuisine_truthy s && c.is_generic_food_question == "yes" then
    query ++ " " ++ cuisine_val s ++ " restaurant"
  else query

/-- The relevance floor `0.7` of line 348. -/
def relevance_threshold : ℚ := mkRat 7 10

/-- The retrieval-failure test of line 348:
`len(results) == 0 or results[0][1] < 0.7`. -/
def no_match_cond (results : List (String × ℚ)) : Prop :=
  results = [] ∨ (results.headD ("", 0)).2 < relevance_threshold

instance (results : List (String × ℚ)) : Decidable (no_match_cond results) :=
  inferInstanceAs (Decidable (_ ∨ _))

/-- The fixed no-match message of line 349. -/
def no_match_msg : String :=
  "I couldn\x27t find any matching venues for that request. " ++
    "Could you try rephrasing or being more specific?"

/-- The separator joining the retrieved passages into `last_context`
(line 351). -/
def context_sep : String := "\x0a\x0a---\x0a\x0a"

/-- The preferences payload passed into the initial prompt (line 353):
the real preferences only for a generic food/recommendation question,
otherwise the placeholder `{"cuisine": None}`. -/
def prefs_to_pass (c : Classification) (s : GuideState) :
    List (String × Option String) :=
  if (c.category == "Food and Dining" || c.category == "Recommendations")
      && c.is_generic_food_question == "yes" then
    s.preferences
  else [("cuisine", none)]

/-- `get_recommendations` (lines 331-367).  `db` is the vector store,
`model` the completion service, `now` the timestamp an inner
`add_to_plan` would stamp. -/
def get_recommendations (model : Prompt → String)
    (db : String → List (String × ℚ)) (now : String) (query : String)
    (s : GuideState) (e : Env) : String × GuideState × Env :=
  if plan_add_trigger query then add_to_plan model now s e
  else
    let c := classify_query model query
    let s1 := { s with last_classification := some c }
    if pref_branch c then
      let r := update_preference "cuisine" (some c.preference_value) s1 e
      (pref_ack c.preference_value, r.1, r.2)
    else
      let results := db (enhanced_query c s1 query)
      if no_match_cond results then (no_match_msg, s1, e)
      else
        let ctx := join_sep context_sep (results.map Prod.fst)
        let s2 := { s1 with last_context := some ctx }
        let resp := model
          (Prompt.initial ctx query c.category c.intent c.key_terms
            (prefs_to_pass c s2))
        let s3 := { s2 with last_response := some resp }
        (resp, s3, e)

/-- Fixed message of `handle_follow_up` when no usable previous turn
exists (line 374). -/
def no_prev_msg : String :=
  "I don\x27t have any previous recommendations to reference. " ++
    "Please ask about a specific place first."

/-- `handle_follow_up` (lines 369-389).  Note the truthiness test of
line 373 (`not self.last_response or not self.last_context`), and that no
session-memory field is written on this path. -/
def handle_follow_up (model : Prompt → String) (now : String)
    (question : String) (s : GuideState) (e : Env) :
    String × GuideState × Env :=
  if plan_add_trigger question then add_to_plan model now s e
  else if !(opt_truthy s.last_response) || !(opt_truthy s.last_context) then
    (no_prev_msg, s, e)
  else
    let c := classify_query model question
    (model (Prompt.follow_up (s.last_context.getD "") (s.last_response.getD "")
        question c.category c.intent s.preferences),
     s, e)

/-- `is_follow_up_question` (lines 391-397); note line 397 tests
`self.last_response is not None` (identity, not truthiness). -/
def is_follow_up_question (model : Prompt → String) (question : String)
    (s : GuideState) : Bool :=
  if plan_add_trigger question then true
  else
    let c := classify_query model question
    (c.category == "Location/Navigation" || c.category == "Price/Budget Inquiry"
      || c.category == "Details/Information") && s.last_response.isSome

/-! ## The interactive loop (query_data.py, lines 412-435) -/

/-- What one iteration of the `main` loop does with the line read from the
user, beyond mutating the guide. -/
inductive TurnOut where
  | quit
  | reply (msg : String)
deriving DecidableEq

/-- The exit synonyms of line 415. -/
def exit_words : List String := ["quit", "exit", "bye", "done"]

/-- One iteration of the interactive loop (lines 412-435): the raw line is
stripped and lowercased (line 413) before any routing; then exit words,
`show plan`, literal `add to plan`, the follow-up test, and finally
`get_recommendations`. -/
def main_turn (model : Prompt → String) (db : String → List (String × ℚ))
    (now : String) (raw : String) (s : GuideState) (e : Env) :
    TurnOut × GuideState × Env :=
  let q := py_lower (py_strip raw)
  if exit_words.contains q then (TurnOut.quit, s, e)
  else if q == "show plan" then (TurnOut.reply (get_plan_summary model s), s, e)
  else if q == "add to plan" then
    let r := add_to_plan model now s e
    (TurnOut.reply r.1, r.2.1, r.2.2)
  else if is_follow_up_question model q s then
    let r := handle_follow_up model now q s e
    (TurnOut.reply r.1, r.2.1, r.2.2)
  else
    let r := get_recommendations model db now q s e
    (TurnOut.reply r.1, r.2.1, r.2.2)

/-! ## Derived notions used by the stated properties -/

/-- The plan states reachable by the program itself: the empty plan of a
fresh install, any `add_to_plan` step, reloading a plan file written by
`save_plan` (the stores own their files exclusively), and loading any
file that does not hold a saved plan. -/
inductive ReachablePlan : List (List (String × String)) → Prop where
  | init : ReachablePlan []
  | add (model : Prompt → String) (now : String) (s : GuideState) (e : Env) :
      ReachablePlan s.plan →
      ReachablePlan ((add_to_plan model now s e).2.1.plan)
  | reload (s : GuideState) (e : Env)
      (vs : List (List (String × String))) :
      ReachablePlan vs → e.plan_file = PlanFile.storedPlan vs →
      ReachablePlan ((load_plan s e).1.plan)
  | reset (s : GuideState) (e : Env) :
      (∀ vs, e.plan_file ≠ PlanFile.storedPlan vs) →
      ReachablePlan ((load_plan s e).1.plan)

/-- No two plan entries share a case-insensitive name. -/
def plan_names_distinct (vs : List (List (String × String))) : Prop :=
  vs.Pairwise (fun a b => venue_name a ≠ venue_name b)

/-- A sequence of `update_preference` calls for one preference type. -/
def apply_updates (pt : String) (vals : List String) (s : GuideState)
    (e : Env) : GuideState × Env :=
  vals.foldl (fun r v => update_preference pt (some v) r.1 r.2) (s, e)

/-- Field provenance for the classifier: the value came from a line of
the response that starts with `key`, transformed by `f` (the strip or
strip-then-lower post-processing the source applies to that key). -/
def parsed_as (text key : String) (f : String → String) (v : String) : Prop :=
  ∃ line ∈ classify_lines text, py_startswith line key = true ∧
    v = f (py_remove line key)

/-! ## Concrete oracle and state instances used by witnesses -/

/-- A completion service that always answers with the empty string. -/
def blank_model : Prompt → String := fun _ => ""

/-- A retriever that never finds anything. -/
def empty_db : String → List (String × ℚ) := fun _ => []

/-- A fresh installation: neither file exists yet. -/
def fresh_env : Env := ⟨PrefFile.missing, PlanFile.missing⟩

/-- Extraction oracle naming the venue Joe Pizza. -/
def c2_model : Prompt → String := fun p =>
  match p with
  | Prompt.extraction _ => "Name: Joe Pizza"
  | _ => ""

/-- A fresh session that has just retrieved some venue text. -/
def c2_pre_state : GuideState :=
  { init_state with last_context := some "venue text" }

/-- A state whose plan already holds a venue named JOE PIZZA and whose
last context would extract to the name Joe Pizza. -/
def c2_state : GuideState :=
  { init_state with
    last_context := some "venue text",
    plan := [[("name", "JOE PIZZA")]] }

/-- Classifier oracle answering with a cuisine preference statement. -/
def c5_pref_model : Prompt → String := fun p =>
  match p with
  | Prompt.classification _ =>
      "Is Preference: yes\x0aPreference Type: cuisine\x0aPreference Value: mexican"
  | _ => ""

/-- Oracle classifying the turn as Details/Information and answering the
follow-up prompt. -/
def c5_fu_model : Prompt → String := fun p =>
  match p with
  | Prompt.classification _ => "Category: Details/Information"
  | Prompt.follow_up _ _ _ _ _ _ => "new answer"
  | _ => ""

/-- A session that already produced a recommendation. -/
def c5_fu_state : GuideState :=
  { init_state with
    last_response := some "old answer",
    last_context := some "ctx" }

/-- Oracle for a plain successful recommendation turn. -/
def c5_success_model : Prompt → String := fun p =>
  match p with
  | Prompt.classification _ => "Category: Entertainment\x0aIntent: have fun"
  | Prompt.initial _ _ _ _ _ _ => "Go to the park."
  | _ => ""

/-- A retriever returning one passage with a perfect score. -/
def c5_db : String → List (String × ℚ) := fun _ => [("Central Park info", 1)]

/-- Oracle classifying any query as a generic Food and Dining question. -/
def c6_model : Prompt → String := fun p =>
  match p with
  | Prompt.classification _ =>
      "Category: Food and Dining\x0aIs Generic Food Question: yes"
  | _ => ""

/-- A retriever that echoes its query back as the single passage, making
the query text handed to retrieval observable in `last_context`. -/
def c6_db : String → List (String × ℚ) := fun q => [(q, 1)]

/-- A state holding a non-null but empty stored cuisine preference. -/
def c6_state : GuideState :=
  { init_state with preferences := [("cuisine", some "")] }

/-- A state holding the stored cuisine preference `thai`. -/
def c6_good_state : GuideState :=
  { init_state with preferences := [("cuisine", some "thai")] }

/-- A generic Recommendations classification. -/
def c6_class : Classification :=
  { default_classification with
    category := "Food and Dining",
    is_generic_food_question := "yes" }

/-- Oracle whose classification answer differs from `blank_model` but
whose extraction answers agree with it. -/
def c7_model : Prompt → String := fun p =>
  match p with
  | Prompt.classification _ => "Category: Entertainment"
  | _ => ""

/-- A session that already produced a recommendation. -/
def c8_state : GuideState :=
  { init_state with
    last_response := some "prev answer",
    last_context := some "ctx text" }

/-! ## Dictionary lemmas -/

theorem find?_append_right {α : Type} (p : α → Bool) (d l : List α)
    (h : List.find? p d = none) : List.find? p (d ++ l) = List.find? p l := by
  induction d with
  | nil => rfl
  | cons hd tl ih =>
    rcases hp : p hd with _ | _
    · rw [List.cons_append, List.find?_cons_of_neg _ (by simp [hp])]
      rw [List.find?_cons_of_neg _ (by simp [hp])] at h
      exact ih h
    · rw [List.find?_cons_of_pos _ hp] at h
      exact absurd h (by simp)

theorem find?_append_single_ne {α : Type} (p : α → Bool) (d : List α) (x : α)
    (hx : p x = false) : List.find? p (d ++ [x]) = List.find? p d := by
  induction d with
  | nil =>
    rw [List.nil_append, List.find?_cons_of_neg _ (by simp [hx])]
  | cons hd tl ih =>
    rcases hp : p hd with _ | _
    · rw [List.cons_append, List.find?_cons_of_neg _ (by simp [hp]),
        List.find?_cons_of_neg _ (by simp [hp])]
      exact ih
    · rw [List.cons_append, List.find?_cons_of_pos _ hp,
        List.find?_cons_of_pos _ hp]
theorem find?_set_map {α : Type} (d : List (String × α)) (k : String) (v : α)
    (h : d.any (fun kv => kv.1 == k) = true) :
    List.find? (fun kv => kv.1 == k)
      (d.map fun kv => if kv.1 == k then (k, v) else kv) = some (k, v) := by
  induction d with
  | nil => exact absurd h (by simp)
  | cons hd tl ih =>
    rcases h1 : (hd.1 == k) with _ | _
    · rw [List.map_cons, if_neg (by simp [h1]),
        List.find?_cons_of_neg _ (by simp [h1])]
      simp only [List.any_cons, h1, Bool.false_or] at h
      exact ih h
    · rw [List.map_cons, if_pos h1, List.find?_cons_of_pos _ (by simp)]
theorem find?_none_of_any_false {α : Type} (d : List (String × α)) (k : String)
    (h : d.any (fun kv => kv.1 == k) = false) :
    List.find? (fun kv => kv.1 == k) d = none := by
  rw [List.find?_eq_none]
  intro x hx
  rw [List.any_eq_false] at h
  simpa using h x hx

/-- Looking up the key just written returns the written value. -/
theorem dictGet_dictSet_self {α : Type} (d : List (String × α)) (k : String)
    (v : α) : dictGet (dictSet d k v) k = some v := by
  unfold dictSet dictGet
  rcases h : d.any (fun kv => kv.1 == k) with _ | _
  · rw [if_neg (by simp [h])]
    rw [find?_append_right _ _ _ (find?_none_of_any_false d k h)]
    rw [List.find?_cons_of_pos _ (by simp)]
    rfl
  · rw [if_pos rfl]
    rw [find?_set_map d k v h]
    rfl

theorem find?_map_set_ne {α : Type} (d : List (String × α)) (k k2 : String)
    (v : α) (h : (k == k2) = false) :
    List.find? (fun kv => kv.1 == k2)
        (d.map fun kv => if kv.1 == k then (k, v) else kv) =
      List.find? (fun kv => kv.1 == k2) d := by
  induction d with
  | nil => rfl
  | cons hd tl ih =>
    rcases h1 : (hd.1 == k) with _ | _
    · rw [List.map_cons, if_neg (by simp [h1])]
      rcases h2 : (hd.1 == k2) with _ | _
      · rw [List.find?_cons_of_neg _ (by simp [h2]),
          List.find?_cons_of_neg _ (by simp [h2]), ih]
      · rw [List.find?_cons_of_pos _ (by simp [h2]), List.find?_cons_of_pos _ (by simp [h2])]
    · have hd1 : hd.1 = k := by simpa using h1
      have h2 : (hd.1 == k2) = false := by rw [hd1]; exact h
      rw [List.map_cons, if_pos h1,
        List.find?_cons_of_neg _ (by simp [h]),
        List.find?_cons_of_neg _ (by simp [h2]), ih]
/-- Writing one key does not disturb lookups of a different key. -/
theorem dictGet_dictSet_ne {α : Type} (d : List (String × α)) (k k2 : String)
    (v : α) (h : k2 ≠ k) : dictGet (dictSet d k v) k2 = dictGet d k2 := by
  have hkk2 : (k == k2) = false := by
    simpa using fun hc => h hc.symm
  unfold dictSet dictGet
  rcases hany : d.any (fun kv => kv.1 == k) with _ | _
  · rw [if_neg (by simp [hany])]
    rw [find?_append_single_ne _ _ _ (by simpa using hkk2)]
  · rw [if_pos rfl]
    rw [find?_map_set_ne d k k2 v hkk2]

/-! ## Character and string lemmas -/

theorem data_mk (l : List Char) : (String.mk l).data = l := rfl

theorem lower_char_cases (c : Char) : py_lower_char c = c ∨
    py_lower_char c ∈ ['a','b','c','d','e','f','g','h','i','j','k','l','m',
                       'n','o','p','q','r','s','t','u','v','w','x','y','z'] := by
  unfold py_lower_char
  split <;> first | exact Or.inl rfl | decide

theorem lower_char_idem (c : Char) :
    py_lower_char (py_lower_char c) = py_lower_char c := by
  rcases lower_char_cases c with h | h
  · rw [h]; exact h
  · simp only [List.mem_cons, List.not_mem_nil, or_false] at h
    rcases h with h|h|h|h|h|h|h|h|h|h|h|h|h|h|h|h|h|h|h|h|h|h|h|h|h|h <;>
      rw [h] <;> decide

theorem ws_lower (c : Char) :
    (py_lower_char c).isWhitespace = c.isWhitespace := by
  unfold py_lower_char
  split <;> first | rfl | decide

theorem map_lower_idem (l : List Char) :
    (l.map py_lower_char).map py_lower_char = l.map py_lower_char := by
  rw [List.map_map]
  have h : py_lower_char ∘ py_lower_char = py_lower_char :=
    funext lower_char_idem
  rw [h]

theorem dropWhile_idem {α : Type} (p : α → Bool) (l : List α) :
    (l.dropWhile p).dropWhile p = l.dropWhile p := by
  induction l with
  | nil => rfl
  | cons a as ih =>
    rcases h : p a with _ | _
    · simp [List.dropWhile_cons, h]
    · simp [List.dropWhile_cons, h, ih]

theorem dropWhile_eq_self {α : Type} (p : α → Bool) (l : List α)
    (h : ∀ c, l.head? = some c → p c = false) : l.dropWhile p = l := by
  cases l with
  | nil => rfl
  | cons a as => simp [List.dropWhile_cons, h a rfl]

theorem head_not_of_dropWhile_self {α : Type} (p : α → Bool) (l : List α)
    (h : l.dropWhile p = l) : ∀ c, l.head? = some c → p c = false := by
  intro c hc
  cases l with
  | nil => cases hc
  | cons a as =>
    have hac : a = c := by injection hc
    subst hac
    have h2 := List.dropWhile_eq_self_iff.mp h (by simp)
    simpa using h2

theorem strip_of_left_stripped {α : Type} (p : α → Bool) (a : List α)
    (ha : a.dropWhile p = a) :
    (((a.reverse.dropWhile p).reverse.dropWhile p).reverse.dropWhile p).reverse =
      (a.reverse.dropWhile p).reverse := by
  have hb : ((a.reverse.dropWhile p).reverse).dropWhile p =
      (a.reverse.dropWhile p).reverse := by
    apply dropWhile_eq_self
    intro c hc
    have hdec : a = (a.reverse.dropWhile p).reverse ++
        (a.reverse.takeWhile p).reverse := by
      rw [← List.reverse_append, List.takeWhile_append_dropWhile,
        List.reverse_reverse]
    have hca : a.head? = some c := by
      rw [hdec, List.head?_append, hc]; rfl
    exact head_not_of_dropWhile_self p a ha c hca
  rw [hb, List.reverse_reverse, dropWhile_idem]

theorem strip_list_idem (l : List Char) :
    py_strip_list (py_strip_list l) = py_strip_list l := by
  unfold py_strip_list
  exact strip_of_left_stripped _ _ (dropWhile_idem _ _)

theorem strip_list_map_lower (l : List Char) :
    py_strip_list (l.map py_lower_char) =
      (py_strip_list l).map py_lower_char := by
  have hcomp : Char.isWhitespace ∘ py_lower_char = Char.isWhitespace :=
    funext ws_lower
  unfold py_strip_list
  rw [List.dropWhile_map, hcomp, ← List.map_reverse, List.dropWhile_map,
    hcomp, ← List.map_reverse]

theorem process_idem (s : String) :
    py_lower (py_strip (py_lower (py_strip s))) = py_lower (py_strip s) := by
  unfold py_lower py_strip
  simp only [data_mk]
  rw [strip_list_map_lower, strip_list_idem, map_lower_idem]

/-! ## Classifier parsing lemmas -/

/-- Provenance of one field through the whole line fold: either no line
set it (the initial value survives) or some matching line determined the
final value. -/
theorem foldl_parse_origin (field : Classification → String) (key : String)
    (f : String → String)
    (hstep : ∀ c line, field (parse_class_line c line) = field c ∨
      (py_startswith line key = true ∧
        field (parse_class_line c line) = f (py_remove line key))) :
    ∀ (lines : List String) (c0 : Classification),
      field (lines.foldl parse_class_line c0) = field c0 ∨
      ∃ line ∈ lines, py_startswith line key = true ∧
        field (lines.foldl parse_class_line c0) = f (py_remove line key) := by
  intro lines
  induction lines with
  | nil => intro c0; exact Or.inl rfl
  | cons l ls ih =>
    intro c0
    simp only [List.foldl_cons]
    rcases ih (parse_class_line c0 l) with h | ⟨line, hmem, hsw, hval⟩
    · rcases hstep c0 l with h2 | ⟨hsw, hval⟩
      · exact Or.inl (h.trans h2)
      · exact Or.inr ⟨l, List.mem_cons_self l ls, hsw, h.trans hval⟩
    · exact Or.inr ⟨line, List.mem_cons_of_mem l hmem, hsw, hval⟩

theorem step_category (c : Classification) (line : String) :
    (parse_class_line c line).category = c.category ∨
    (py_startswith line "Category:" = true ∧
      (parse_class_line c line).category = py_strip (py_remove line "Category:")) := by
  unfold parse_class_line
  split_ifs with h1 h2 h3 h4 h5 h6 h7 <;>
    first | exact Or.inl rfl | exact Or.inr ⟨by assumption, rfl⟩

theorem step_intent (c : Classification) (line : String) :
    (parse_class_line c line).intent = c.intent ∨
    (py_startswith line "Intent:" = true ∧
      (parse_class_line c line).intent = py_strip (py_remove line "Intent:")) := by
  unfold parse_class_line
  split_ifs with h1 h2 h3 h4 h5 h6 h7 <;>
    first | exact Or.inl rfl | exact Or.inr ⟨by assumption, rfl⟩

theorem step_key_terms (c : Classification) (line : String) :
    (parse_class_line c line).key_terms = c.key_terms ∨
    (py_startswith line "Key Terms:" = true ∧
      (parse_class_line c line).key_terms = py_strip (py_remove line "Key Terms:")) := by
  unfold parse_class_line
  split_ifs with h1 h2 h3 h4 h5 h6 h7 <;>
    first | exact Or.inl rfl | exact Or.inr ⟨by assumption, rfl⟩

theorem step_is_preference (c : Classification) (line : String) :
    (parse_class_line c line).is_preference = c.is_preference ∨
    (py_startswith line "Is Preference:" = true ∧
      (parse_class_line c line).is_preference =
        py_lower (py_strip (py_remove line "Is Preference:"))) := by
  unfold parse_class_line
  split_ifs with h1 h2 h3 h4 h5 h6 h7 <;>
    first | exact Or.inl rfl | exact Or.inr ⟨by assumption, rfl⟩

theorem step_preference_type (c : Classification) (line : String) :
    (parse_class_line c line).preference_type = c.preference_type ∨
    (py_startswith line "Preference Type:" = true ∧
      (parse_class_line c line).preference_type =
        py_lower (py_strip (py_remove line "Preference Type:"))) := by
  unfold parse_class_line
  split_ifs with h1 h2 h3 h4 h5 h6 h7 <;>
    first | exact Or.inl rfl | exact Or.inr ⟨by assumption, rfl⟩

theorem step_preference_value (c : Classification) (line : String) :
    (parse_class_line c line).preference_value = c.preference_value ∨
    (py_startswith line "Preference Value:" = true ∧
      (parse_class_line c line).preference_value =
        py_lower (py_strip (py_remove line "Preference Value:"))) := by
  unfold parse_class_line
  split_ifs with h1 h2 h3 h4 h5 h6 h7 <;>
    first | exact Or.inl rfl | exact Or.inr ⟨by assumption, rfl⟩

theorem step_is_generic (c : Classification) (line : String) :
    (parse_class_line c line).is_generic_food_question =
        c.is_generic_food_question ∨
    (py_startswith line "Is Generic Food Question:" = true ∧
      (parse_class_line c line).is_generic_food_question =
        py_lower (py_strip (py_remove line "Is Generic Food Question:"))) := by
  unfold parse_class_line
  split_ifs with h1 h2 h3 h4 h5 h6 h7 <;>
    first | exact Or.inl rfl | exact Or.inr ⟨by assumption, rfl⟩

/-! ## Plan lemmas -/

/-- Stamping `added_at` and `context` onto the extracted record does not
change its deduplication name. -/
theorem venue_name_entry (info : List (String × String)) (now ctx : String) :
    venue_name (dictSet (dictSet info "added_at" now) "context" ctx) =
      venue_name info := by
  unfold venue_name
  rw [dictGet_dictSet_ne _ _ _ _ (by decide),
    dictGet_dictSet_ne _ _ _ _ (by decide)]

/-- Case analysis of what `add_to_plan` does to the plan: either it leaves
it alone, or it appends the freshly extracted entry after the duplicate
check failed. -/
theorem add_to_plan_plan (model : Prompt → String) (now : String)
    (s : GuideState) (e : Env) :
    (add_to_plan model now s e).2.1.plan = s.plan ∨
    ((s.plan.any (fun v => venue_name v ==
        venue_name (extract_venue_info model (s.last_context.getD "")))) =
          false ∧
      (add_to_plan model now s e).2.1.plan = s.plan ++
        [dictSet (dictSet
          (extract_venue_info model (s.last_context.getD "")) "added_at" now)
          "context" (s.last_context.getD "")]) := by
  unfold add_to_plan
  rcases ht : opt_truthy s.last_context with _ | _
  · rw [if_pos (by decide)]
    exact Or.inl rfl
  · rw [if_neg (by decide)]
    dsimp only
    rcases hdup : s.plan.any (fun v => venue_name v ==
        venue_name (extract_venue_info model (s.last_context.getD ""))) with
      _ | _
    · rw [if_neg (by simp)]
      exact Or.inr ⟨rfl, rfl⟩
    · rw [if_pos rfl]
      exact Or.inl rfl

/-- `enhanced_query` only reads the preferences, so overwriting session
memory fields does not change it. -/
theorem enhanced_query_set_class (c : Classification) (s : GuideState)
    (x : Option Classification) (q : String) :
    enhanced_query c { s with last_classification := x } q =
      enhanced_query c s q := rfl

/-! ## Claim theorems -/

/-- C1: whenever a recommendation turn reaches retrieval (it is neither a
plan-add short-circuit nor a preference statement) and retrieval returns
zero results or a top relevance score below 0.7, `get_recommendations`
returns exactly the fixed no-match message, leaves `last_context` and
`last_response` unchanged, and does not touch the persisted files. -/
theorem c1_retrieval_no_match_fallback (model : Prompt → String)
    (db : String → List (String × ℚ)) (now query : String) (s : GuideState)
    (e : Env) (h1 : plan_add_trigger query = false)
    (h2 : pref_branch (classify_query model query) = false)
    (h3 : no_match_cond
      (db (enhanced_query (classify_query model query) s query))) :
    (get_recommendations model db now query s e).1 = no_match_msg ∧
    (get_recommendations model db now query s e).2.1.last_context =
      s.last_context ∧
    (get_recommendations model db now query s e).2.1.last_response =
      s.last_response ∧
    (get_recommendations model db now query s e).2.2 = e := by
  have key : get_recommendations model db now query s e =
      (no_match_msg,
        { s with last_classification := some (classify_query model query) },
        e) := by
    unfold get_recommendations
    rw [if_neg (by simp [h1]), if_neg (by simp [h2])]
    dsimp only
    rw [enhanced_query_set_class, if_pos h3]
  rw [key]
  exact ⟨rfl, rfl, rfl, rfl⟩

/-- C1 witness: a fresh session asked `hello` against an empty retriever
reaches the fallback and keeps its session memory. -/
theorem c1_witness :
    plan_add_trigger "hello" = false ∧
    pref_branch (classify_query blank_model "hello") = false ∧
    no_match_cond (empty_db
      (enhanced_query (classify_query blank_model "hello") init_state "hello")) ∧
    (get_recommendations blank_model empty_db "T" "hello" init_state
      fresh_env).1 = no_match_msg ∧
    (get_recommendations blank_model empty_db "T" "hello" init_state
      fresh_env).2.1.last_context = init_state.last_context ∧
    (get_recommendations blank_model empty_db "T" "hello" init_state
      fresh_env).2.1.last_response = init_state.last_response :=
  ⟨by decide, by decide, Or.inl rfl,
    (c1_retrieval_no_match_fallback blank_model empty_db "T" "hello"
      init_state fresh_env (by decide) (by decide) (Or.inl rfl)).1,
    (c1_retrieval_no_match_fallback blank_model empty_db "T" "hello"
      init_state fresh_env (by decide) (by decide) (Or.inl rfl)).2.1,
    (c1_retrieval_no_match_fallback blank_model empty_db "T" "hello"
      init_state fresh_env (by decide) (by decide) (Or.inl rfl)).2.2.1⟩

/-- C2: every plan state the program can reach carries no two entries
with case-insensitively equal names, and an `add_to_plan` that gets past
the truthiness gate of line 211 (a non-null, non-empty stored context)
whose extracted name matches an existing entry case-insensitively returns
the already-in-plan message and changes neither the state nor the files. -/
theorem c2_plan_dedup_invariant :
    (∀ vs, ReachablePlan vs → plan_names_distinct vs) ∧
    (∀ (model : Prompt → String) (now : String) (s : GuideState) (e : Env)
      (ctx : String), s.last_context = some ctx → ctx ≠ "" →
      (∃ v ∈ s.plan,
        venue_name v = venue_name (extract_venue_info model ctx)) →
      add_to_plan model now s e =
        (((dictGet (extract_venue_info model ctx) "name").getD "This venue") ++
          " is already in your plan!", s, e)) := by
  constructor
  · intro vs h
    induction h with
    | init => exact List.Pairwise.nil
    | add model now s e hr ih =>
      rcases add_to_plan_plan model now s e with hp | ⟨hdup, hp⟩
      · rw [hp]; exact ih
      · rw [hp]
        unfold plan_names_distinct at ih ⊢
        rw [List.pairwise_append]
        refine ⟨ih, List.pairwise_singleton _ _, ?_⟩
        intro a ha b hb
        simp only [List.mem_singleton] at hb
        subst hb
        rw [venue_name_entry]
        have hne := List.any_eq_false.mp hdup a ha
        simpa using hne
    | reload s e vs hr hf ih =>
      unfold load_plan
      rw [hf]
      exact ih
    | reset s e hf =>
      unfold load_plan
      cases he : e.plan_file with
      | storedPlan vs => exact absurd he (hf vs)
      | missing => exact List.Pairwise.nil
      | corrupt => exact List.Pairwise.nil
      | storedOther => exact List.Pairwise.nil
  · intro model now s e ctx hctx hne hdup
    unfold add_to_plan
    rw [hctx]
    rw [if_neg (by simp [opt_truthy, hne])]
    simp only [Option.getD_some]
    rw [if_pos ?hpos]
    case hpos =>
      rw [List.any_eq_true]
      obtain ⟨v, hv, heq⟩ := hdup
      exact ⟨v, hv, by simp [heq]⟩

/-- C2 witness: a plan holding JOE PIZZA rejects adding Joe Pizza and is
left unchanged; the singleton run reaching that plan is duplicate-free. -/
theorem c2_witness :
    plan_names_distinct
      ((add_to_plan c2_model "T" c2_pre_state fresh_env).2.1.plan) ∧
    c2_state.last_context = some "venue text" ∧
    (∃ v ∈ c2_state.plan,
      venue_name v = venue_name (extract_venue_info c2_model "venue text")) ∧
    add_to_plan c2_model "T" c2_state fresh_env =
      (((dictGet (extract_venue_info c2_model "venue text") "name").getD
          "This venue") ++ " is already in your plan!", c2_state, fresh_env) := by
  refine ⟨?_, rfl, ?_, ?_⟩
  · exact c2_plan_dedup_invariant.1 _
      (ReachablePlan.add c2_model "T" c2_pre_state fresh_env
        ReachablePlan.init)
  · decide
  · exact c2_plan_dedup_invariant.2 c2_model "T" c2_state fresh_env
      "venue text" rfl (by decide) (by decide)

/-- C3: whatever text the completion service returns, every field of the
parsed classification is either its documented default or the strip or
strip-and-lowercase post-processing of a response line starting with that
field key; the parser is total, so the call never fails. -/
theorem c3_classifier_always_populated (text : String) :
    ((parse_classification text).category = "" ∨
      parsed_as text "Category:" py_strip (parse_classification text).category) ∧
    ((parse_classification text).intent = "" ∨
      parsed_as text "Intent:" py_strip (parse_classification text).intent) ∧
    ((parse_classification text).key_terms = "" ∨
      parsed_as text "Key Terms:" py_strip
        (parse_classification text).key_terms) ∧
    ((parse_classification text).is_preference = "no" ∨
      parsed_as text "Is Preference:" (fun r => py_lower (py_strip r))
        (parse_classification text).is_preference) ∧
    ((parse_classification text).preference_type = "none" ∨
      parsed_as text "Preference Type:" (fun r => py_lower (py_strip r))
        (parse_classification text).preference_type) ∧
    ((parse_classification text).preference_value = "none" ∨
      parsed_as text "Preference Value:" (fun r => py_lower (py_strip r))
        (parse_classification text).preference_value) ∧
    ((parse_classification text).is_generic_food_question = "none" ∨
      parsed_as text "Is Generic Food Question:"
        (fun r => py_lower (py_strip r))
        (parse_classification text).is_generic_food_question) := by
  refine ⟨?_, ?_, ?_, ?_, ?_, ?_, ?_⟩
  · exact foldl_parse_origin (fun c => c.category) "Category:" py_strip
      step_category (classify_lines text) default_classification
  · exact foldl_parse_origin (fun c => c.intent) "Intent:" py_strip
      step_intent (classify_lines text) default_classification
  · exact foldl_parse_origin (fun c => c.key_terms) "Key Terms:" py_strip
      step_key_terms (classify_lines text) default_classification
  · exact foldl_parse_origin (fun c => c.is_preference) "Is Preference:"
      (fun r => py_lower (py_strip r)) step_is_preference
      (classify_lines text) default_classification
  · exact foldl_parse_origin (fun c => c.preference_type) "Preference Type:"
      (fun r => py_lower (py_strip r)) step_preference_type
      (classify_lines text) default_classification
  · exact foldl_parse_origin (fun c => c.preference_value)
      "Preference Value:" (fun r => py_lower (py_strip r))
      step_preference_value (classify_lines text) default_classification
  · exact foldl_parse_origin (fun c => c.is_generic_food_question)
      "Is Generic Food Question:" (fun r => py_lower (py_strip r))
      step_is_generic (classify_lines text) default_classification

/-- C4: after any non-empty sequence of `update_preference` calls for one
preference type, the stored value is the last value written, the file
holds exactly the in-memory dict, and reloading the store from that file
returns the same value. -/
theorem c4_last_update_wins (pt : String) (vals : List String)
    (s : GuideState) (e : Env) (v : String) (h : vals.getLast? = some v) :
    dictGet (apply_updates pt vals s e).1.preferences pt = some (some v) ∧
    (apply_updates pt vals s e).2.pref_file =
      PrefFile.stored (apply_updates pt vals s e).1.preferences ∧
    (∀ s0 : GuideState,
      dictGet (load_preferences s0
        (apply_updates pt vals s e).2).1.preferences pt = some (some v)) := by
  induction vals generalizing s e with
  | nil => exact absurd h (by simp)
  | cons v0 vs ih =>
    cases vs with
    | nil =>
      have hv : v = v0 := by
        have h2 : some v0 = some v := by simpa using h
        exact (Option.some.inj h2).symm
      subst hv
      exact ⟨dictGet_dictSet_self _ _ _, rfl,
        fun s0 => dictGet_dictSet_self _ _ _⟩
    | cons v1 vs2 =>
      have h2 : (v1 :: vs2).getLast? = some v := by
        simpa [List.getLast?_cons_cons] using h
      exact ih (update_preference pt (some v0) s e).1
        (update_preference pt (some v0) s e).2 h2

/-- C4 witness: updating cuisine to mexican then thai stores thai, and
thai survives a reload of the store. -/
theorem c4_witness :
    (["mexican", "thai"].getLast? = some "thai") ∧
    dictGet (apply_updates "cuisine" ["mexican", "thai"] init_state
      fresh_env).1.preferences "cuisine" = some (some "thai") ∧
    dictGet (load_preferences init_state
      (apply_updates "cuisine" ["mexican", "thai"] init_state
        fresh_env).2).1.preferences "cuisine" = some (some "thai") :=
  ⟨rfl,
    (c4_last_update_wins "cuisine" ["mexican", "thai"] init_state fresh_env
      "thai" rfl).1,
    (c4_last_update_wins "cuisine" ["mexican", "thai"] init_state fresh_env
      "thai" rfl).2.2 init_state⟩

/-- C5 counterexample: the claim says session memory is modified only by
successful recommendations and follow-ups.  But a preference-statement
turn overwrites `last_classification` (from `None` to the parsed record),
and a follow-up turn does NOT overwrite `last_response`: the old answer
stays stored while a different new answer is returned. -/
theorem c5_counterexample :
    (get_recommendations c5_pref_model empty_db "T" "i like mexican food"
      init_state fresh_env).2.1.last_classification ≠
      init_state.last_classification ∧
    (handle_follow_up c5_fu_model "T" "tell me more about it" c5_fu_state
      fresh_env).2.1.last_response = some "old answer" ∧
    (handle_follow_up c5_fu_model "T" "tell me more about it" c5_fu_state
      fresh_env).1 = "new answer" ∧
    ("new answer" : String) ≠ "old answer" := by decide

/-- C5 (amended): `last_response`, `last_context` and
`last_classification` start out empty; a successful recommendation
overwrites all three; follow-ups and plan-add turns change none of them;
preference statements and no-match retrieval turns leave
`last_context`/`last_response` unchanged but overwrite
`last_classification`; the `show plan` command changes nothing. -/
theorem c5_amended_session_memory :
    (∀ e : Env, (guide_init e).1.last_response = none ∧
      (guide_init e).1.last_context = none ∧
      (guide_init e).1.last_classification = none) ∧
    (∀ (model : Prompt → String) (db : String → List (String × ℚ))
      (now query : String) (s : GuideState) (e : Env),
      plan_add_trigger query = false →
      pref_branch (classify_query model query) = false →
      ¬ no_match_cond
        (db (enhanced_query (classify_query model query) s query)) →
      (get_recommendations model db now query s e).2.1.last_context =
        some (join_sep context_sep
          ((db (enhanced_query (classify_query model query) s query)).map
            Prod.fst)) ∧
      (get_recommendations model db now query s e).2.1.last_response =
        some ((get_recommendations model db now query s e).1) ∧
      (get_recommendations model db now query s e).2.1.last_classification =
        some (classify_query model query)) ∧
    (∀ (model : Prompt → String) (now q : String) (s : GuideState) (e : Env),
      plan_add_trigger q = false →
      (handle_follow_up model now q s e).2.1 = s ∧
      (handle_follow_up model now q s e).2.2 = e) ∧
    (∀ (model : Prompt → String) (db : String → List (String × ℚ))
      (now query : String) (s : GuideState) (e : Env),
      plan_add_trigger query = false →
      pref_branch (classify_query model query) = true →
      (get_recommendations model db now query s e).2.1.last_context =
        s.last_context ∧
      (get_recommendations model db now query s e).2.1.last_response =
        s.last_response ∧
      (get_recommendations model db now query s e).2.1.last_classification =
        some (classify_query model query)) ∧
    (∀ (model : Prompt → String) (db : String → List (String × ℚ))
      (now query : String) (s : GuideState) (e : Env),
      plan_add_trigger query = false →
      pref_branch (classify_query model query) = false →
      no_match_cond
        (db (enhanced_query (classify_query model query) s query)) →
      (get_recommendations model db now query s e).2.1.last_context =
        s.last_context ∧
      (get_recommendations model db now query s e).2.1.last_response =
        s.last_response ∧
      (get_recommendations model db now query s e).2.1.last_classification =
        some (classify_query model query)) ∧
    (∀ (model : Prompt → String) (now : String) (s : GuideState) (e : Env),
      (add_to_plan model now s e).2.1.last_response = s.last_response ∧
      (add_to_plan model now s e).2.1.last_context = s.last_context ∧
      (add_to_plan model now s e).2.1.last_classification =
        s.last_classification) ∧
    (∀ (model : Prompt → String) (db : String → List (String × ℚ))
      (now raw : String) (s : GuideState) (e : Env),
      py_lower (py_strip raw) = "show plan" →
      (main_turn model db now raw s e).2.1 = s ∧
      (main_turn model db now raw s e).2.2 = e) := by
  refine ⟨?_, ?_, ?_, ?_, ?_, ?_, ?_⟩
  · intro e
    obtain ⟨pf, plf⟩ := e
    cases pf <;> cases plf <;> exact ⟨rfl, rfl, rfl⟩
  · intro model db now query s e h1 h2 h3
    unfold get_recommendations
    rw [if_neg (by simp [h1]), if_neg (by simp [h2])]
    dsimp only
    rw [enhanced_query_set_class, if_neg h3]
    exact ⟨rfl, rfl, rfl⟩
  · intro model now q s e h1
    unfold handle_follow_up
    rw [if_neg (by simp [h1])]
    rcases hb : (!(opt_truthy s.last_response) ||
        !(opt_truthy s.last_context)) with _ | _
    · rw [if_neg (by simp)]
      exact ⟨rfl, rfl⟩
    · rw [if_pos rfl]
      exact ⟨rfl, rfl⟩
  · intro model db now query s e h1 h2
    unfold get_recommendations
    rw [if_neg (by simp [h1])]
    dsimp only
    rw [if_pos h2]
    exact ⟨rfl, rfl, rfl⟩
  · intro model db now query s e h1 h2 h3
    unfold get_recommendations
    rw [if_neg (by simp [h1]), if_neg (by simp [h2])]
    dsimp only
    rw [enhanced_query_set_class, if_pos h3]
    exact ⟨rfl, rfl, rfl⟩
  · intro model now s e
    unfold add_to_plan
    rcases ht : opt_truthy s.last_context with _ | _
    · rw [if_pos (by decide)]
      exact ⟨rfl, rfl, rfl⟩
    · rw [if_neg (by decide)]
      dsimp only
      rcases hdup : s.plan.any (fun v => venue_name v ==
          venue_name (extract_venue_info model (s.last_context.getD ""))) with
        _ | _
      · rw [if_neg (by simp)]
        exact ⟨rfl, rfl, rfl⟩
      · rw [if_pos rfl]
        exact ⟨rfl, rfl, rfl⟩
  · intro model db now raw s e hq
    unfold main_turn
    dsimp only
    rw [hq, if_neg (by decide), if_pos (by decide)]
    exact ⟨rfl, rfl⟩

/-- C5 witness: one concrete instance of each lifecycle case of the
amended claim. -/
theorem c5_witness :
    ((guide_init fresh_env).1.last_response = none ∧
      (guide_init fresh_env).1.last_context = none ∧
      (guide_init fresh_env).1.last_classification = none) ∧
    ((get_recommendations c5_success_model c5_db "T" "what should i do"
        init_state fresh_env).2.1.last_context =
      some (join_sep context_sep
        ((c5_db (enhanced_query (classify_query c5_success_model
          "what should i do") init_state "what should i do")).map
          Prod.fst)) ∧
      (get_recommendations c5_success_model c5_db "T" "what should i do"
        init_state fresh_env).2.1.last_response =
      some ((get_recommendations c5_success_model c5_db "T" "what should i do"
        init_state fresh_env).1) ∧
      (get_recommendations c5_success_model c5_db "T" "what should i do"
        init_state fresh_env).2.1.last_classification =
      some (classify_query c5_success_model "what should i do")) ∧
    ((handle_follow_up c5_fu_model "T" "tell me more about it" c5_fu_state
        fresh_env).2.1 = c5_fu_state ∧
      (handle_follow_up c5_fu_model "T" "tell me more about it" c5_fu_state
        fresh_env).2.2 = fresh_env) ∧
    ((get_recommendations c5_pref_model empty_db "T" "i like mexican food"
        init_state fresh_env).2.1.last_context = init_state.last_context ∧
      (get_recommendations c5_pref_model empty_db "T" "i like mexican food"
        init_state fresh_env).2.1.last_response = init_state.last_response ∧
      (get_recommendations c5_pref_model empty_db "T" "i like mexican food"
        init_state fresh_env).2.1.last_classification =
      some (classify_query c5_pref_model "i like mexican food")) ∧
    ((get_recommendations blank_model empty_db "T" "hello" init_state
        fresh_env).2.1.last_classification =
      some (classify_query blank_model "hello")) ∧
    ((add_to_plan blank_model "T" init_state fresh_env).2.1.last_response =
      init_state.last_response) ∧
    ((main_turn blank_model empty_db "T" " SHOW PLAN " init_state
        fresh_env).2.1 = init_state) :=
  ⟨c5_amended_session_memory.1 fresh_env,
    c5_amended_session_memory.2.1 c5_success_model c5_db "T"
      "what should i do" init_state fresh_env (by decide) (by decide)
      (by decide),
    c5_amended_session_memory.2.2.1 c5_fu_model "T" "tell me more about it"
      c5_fu_state fresh_env (by decide),
    c5_amended_session_memory.2.2.2.1 c5_pref_model empty_db "T"
      "i like mexican food" init_state fresh_env (by decide) (by decide),
    (c5_amended_session_memory.2.2.2.2.1 blank_model empty_db "T" "hello"
      init_state fresh_env (by decide) (by decide) (Or.inl rfl)).2.2,
    (c5_amended_session_memory.2.2.2.2.2.1 blank_model "T" init_state
      fresh_env).1,
    (c5_amended_session_memory.2.2.2.2.2.2 blank_model empty_db "T"
      " SHOW PLAN " init_state fresh_env (by decide)).1⟩

/-- C6 counterexample: with the stored cuisine preference equal to the
empty string (non-null), a generic Food and Dining question is retrieved
with the query UNMODIFIED, although the claim requires augmentation
whenever a non-null stored preference exists.  The echoing retriever
exposes the query actually handed to retrieval in `last_context`. -/
theorem c6_counterexample :
    dictGet c6_state.preferences "cuisine" = some (some "") ∧
    (classify_query c6_model "where can i grab a quick bite").category =
      "Food and Dining" ∧
    (classify_query c6_model
      "where can i grab a quick bite").is_generic_food_question = "yes" ∧
    enhanced_query (classify_query c6_model "where can i grab a quick bite")
      c6_state "where can i grab a quick bite" =
      "where can i grab a quick bite" ∧
    (get_recommendations c6_model c6_db "T" "where can i grab a quick bite"
      c6_state fresh_env).2.1.last_context =
      some "where can i grab a quick bite" ∧
    ("where can i grab a quick bite" : String) ≠
      "where can i grab a quick bite" ++ " " ++ "" ++ " restaurant" := by
  decide

/-- C6 (amended): the retrieval query is the original query with
`" <stored cuisine> restaurant"` appended exactly when the category is
Food and Dining or Recommendations, the stored cuisine preference is
non-null AND non-empty (Python truthiness), and the question is flagged
generic; otherwise retrieval runs with the query unmodified, and
`get_recommendations` consults the retriever only at that query. -/
theorem c6_amended_query_augmentation (c : Classification) (s : GuideState)
    (q : String) :
    (cuisine_truthy s = true ↔
      ∃ v, dictGet s.preferences "cuisine" = some (some v) ∧ v ≠ "") ∧
    (((c.category = "Food and Dining" ∨ c.category = "Recommendations") ∧
        cuisine_truthy s = true ∧ c.is_generic_food_question = "yes") →
      enhanced_query c s q = q ++ " " ++ cuisine_val s ++ " restaurant") ∧
    ((¬ ((c.category = "Food and Dining" ∨ c.category = "Recommendations") ∧
        cuisine_truthy s = true ∧ c.is_generic_food_question = "yes")) →
      enhanced_query c s q = q) ∧
    (∀ (model : Prompt → String) (db : String → List (String × ℚ))
      (now : String) (e : Env),
      get_recommendations model db now q s e =
        get_recommendations model
          (fun _ => db (enhanced_query (classify_query model q) s q))
          now q s e) := by
  refine ⟨?_, ?_, ?_, ?_⟩
  · constructor
    · intro h
      unfold cuisine_truthy at h
      rcases hget : dictGet s.preferences "cuisine" with _ | ov
      · rw [hget] at h; cases h
      · rcases ov with _ | v
        · rw [hget] at h; cases h
        · rw [hget] at h
          exact ⟨v, rfl, by simpa using h⟩
    · rintro ⟨v, hget, hne⟩
      unfold cuisine_truthy
      rw [hget]
      simpa using hne
  · rintro ⟨hcat, htru, hgen⟩
    unfold enhanced_query
    rw [if_pos (by rcases hcat with h | h <;> simp [h, htru, hgen])]
  · intro hn
    unfold enhanced_query
    rw [if_neg ?hneg]
    case hneg =>
      intro hb
      simp only [Bool.and_eq_true, Bool.or_eq_true, beq_iff_eq] at hb
      exact hn ⟨hb.1.1, hb.1.2, hb.2⟩
  · intro model db now e
    rfl

/-- C6 witness: with stored cuisine `thai` and a generic Food and Dining
classification the query is augmented; a fresh state with no stored
preference retrieves unmodified. -/
theorem c6_witness :
    enhanced_query c6_class c6_good_state "where can i grab a quick bite" =
      "where can i grab a quick bite" ++ " " ++
        cuisine_val c6_good_state ++ " restaurant" ∧
    enhanced_query c6_class init_state "where can i grab a quick bite" =
      "where can i grab a quick bite" ∧
    cuisine_truthy c6_good_state = true :=
  ⟨(c6_amended_query_augmentation c6_class c6_good_state
      "where can i grab a quick bite").2.1 ⟨Or.inl rfl, by decide, rfl⟩,
    (c6_amended_query_augmentation c6_class init_state
      "where can i grab a quick bite").2.2.1 (by decide),
    (c6_amended_query_augmentation c6_class c6_good_state
      "where can i grab a quick bite").1.mpr ⟨"thai", rfl, by decide⟩⟩

/-- C7: any utterance containing one of the four plan-add phrases
case-insensitively makes `get_recommendations` and `handle_follow_up`
return exactly the `add_to_plan` outcome, makes `is_follow_up_question`
answer true immediately, and the outcome is independent of everything the
completion service would say outside the extraction prompt (in particular
no classification influences it). -/
theorem c7_plan_add_short_circuit (model model2 : Prompt → String)
    (db : String → List (String × ℚ)) (now q : String) (s : GuideState)
    (e : Env) (h : plan_add_trigger q = true)
    (hagree : ∀ ctx, model (Prompt.extraction ctx) =
      model2 (Prompt.extraction ctx)) :
    get_recommendations model db now q s e = add_to_plan model now s e ∧
    handle_follow_up model now q s e = add_to_plan model now s e ∧
    is_follow_up_question model q s = true ∧
    add_to_plan model now s e = add_to_plan model2 now s e := by
  refine ⟨?_, ?_, ?_, ?_⟩
  · unfold get_recommendations
    rw [if_pos h]
  · unfold handle_follow_up
    rw [if_pos h]
  · unfold is_follow_up_question
    rw [if_pos h]
  · unfold add_to_plan extract_venue_info
    dsimp only
    rw [hagree (s.last_context.getD "")]

/-- C7 witness: `could you SAVE THIS for me` short-circuits all three
entry points, with a classifier whose answers do not matter. -/
theorem c7_witness :
    plan_add_trigger "could you SAVE THIS for me" = true ∧
    get_recommendations c7_model empty_db "T" "could you SAVE THIS for me"
      init_state fresh_env = add_to_plan c7_model "T" init_state fresh_env ∧
    handle_follow_up c7_model "T" "could you SAVE THIS for me" init_state
      fresh_env = add_to_plan c7_model "T" init_state fresh_env ∧
    is_follow_up_question c7_model "could you SAVE THIS for me" init_state =
      true ∧
    add_to_plan c7_model "T" init_state fresh_env =
      add_to_plan blank_model "T" init_state fresh_env :=
  ⟨by decide,
    (c7_plan_add_short_circuit c7_model blank_model empty_db "T"
      "could you SAVE THIS for me" init_state fresh_env (by decide)
      (fun _ => rfl)).1,
    (c7_plan_add_short_circuit c7_model blank_model empty_db "T"
      "could you SAVE THIS for me" init_state fresh_env (by decide)
      (fun _ => rfl)).2.1,
    (c7_plan_add_short_circuit c7_model blank_model empty_db "T"
      "could you SAVE THIS for me" init_state fresh_env (by decide)
      (fun _ => rfl)).2.2.1,
    (c7_plan_add_short_circuit c7_model blank_model empty_db "T"
      "could you SAVE THIS for me" init_state fresh_env (by decide)
      (fun _ => rfl)).2.2.2⟩

/-- C8: a non-plan-add follow-up with a truthy prior response and context
returns the completion of the follow-up prompt built from the stored
context and response, and leaves the whole state (in particular
`last_context` and `last_response`) and the files unchanged. -/
theorem c8_follow_up_frame (model : Prompt → String) (now q : String)
    (s : GuideState) (e : Env) (h1 : plan_add_trigger q = false)
    (h2 : opt_truthy s.last_response = true)
    (h3 : opt_truthy s.last_context = true) :
    handle_follow_up model now q s e =
      (model (Prompt.follow_up (s.last_context.getD "")
        (s.last_response.getD "") q (classify_query model q).category
        (classify_query model q).intent s.preferences), s, e) := by
  unfold handle_follow_up
  rw [if_neg (by simp [h1]), if_neg (by simp [h2, h3])]

/-- C8 witness: a concrete follow-up turn keeps stored context and
response and returns the composed answer. -/
theorem c8_witness :
    plan_add_trigger "how far is it" = false ∧
    opt_truthy c8_state.last_response = true ∧
    opt_truthy c8_state.last_context = true ∧
    handle_follow_up blank_model "T" "how far is it" c8_state fresh_env =
      (blank_model (Prompt.follow_up (c8_state.last_context.getD "")
        (c8_state.last_response.getD "") "how far is it"
        (classify_query blank_model "how far is it").category
        (classify_query blank_model "how far is it").intent
        c8_state.preferences), c8_state, fresh_env) :=
  ⟨by decide, by decide, by decide,
    c8_follow_up_frame blank_model "T" "how far is it" c8_state fresh_env
      (by decide) (by decide) (by decide)⟩

/-- C9 counterexample: a plan file that parses as JSON but is not a dict
containing `venues` resets the in-memory plan to empty but the file is
NOT re-persisted with the default, contradicting the claim that every
load of a structurally unexpected file immediately re-persists the
default. -/
theorem c9_counterexample :
    (load_plan init_state ⟨PrefFile.missing, PlanFile.storedOther⟩).1.plan =
      [] ∧
    (load_plan init_state
      ⟨PrefFile.missing, PlanFile.storedOther⟩).2.plan_file =
      PlanFile.storedOther ∧
    PlanFile.storedOther ≠ PlanFile.storedPlan [] := by decide

/-- C9 (amended): a missing or unparseable plan or preferences file is
reset to the empty default and immediately re-persisted; a plan file that
parses as JSON without the expected dict-with-venues shape is reset in
memory only, leaving the file untouched; a preferences file that parses
as JSON is accepted as-is without structural validation. -/
theorem c9_amended_load_reset (s : GuideState) (e : Env) :
    (e.plan_file = PlanFile.missing ∨ e.plan_file = PlanFile.corrupt →
      (load_plan s e).1.plan = [] ∧
      (load_plan s e).2 = { e with plan_file := PlanFile.storedPlan [] }) ∧
    (e.plan_file = PlanFile.storedOther →
      (load_plan s e).1.plan = [] ∧ (load_plan s e).2 = e) ∧
    (e.pref_file = PrefFile.missing ∨ e.pref_file = PrefFile.corrupt →
      (load_preferences s e).1.preferences = default_preferences ∧
      (load_preferences s e).2 =
        { e with pref_file := PrefFile.stored default_preferences }) ∧
    (∀ p, e.pref_file = PrefFile.stored p →
      (load_preferences s e).1.preferences = p ∧
      (load_preferences s e).2 = e) := by
  refine ⟨?_, ?_, ?_, ?_⟩
  · rintro (h | h) <;> (unfold load_plan; rw [h]; exact ⟨rfl, rfl⟩)
  · intro h
    unfold load_plan
    rw [h]
    exact ⟨rfl, rfl⟩
  · rintro (h | h) <;> (unfold load_preferences; rw [h]; exact ⟨rfl, rfl⟩)
  · intro p h
    unfold load_preferences
    rw [h]
    exact ⟨rfl, rfl⟩

/-- C9 witness: concrete loads of a missing plan file, a JSON plan file
without the expected shape, a missing preferences file and a stored
preferences file. -/
theorem c9_witness :
    ((load_plan init_state fresh_env).1.plan = [] ∧
      (load_plan init_state fresh_env).2 =
        { fresh_env with plan_file := PlanFile.storedPlan [] }) ∧
    ((load_plan init_state ⟨PrefFile.missing, PlanFile.storedOther⟩).1.plan =
        [] ∧
      (load_plan init_state ⟨PrefFile.missing, PlanFile.storedOther⟩).2 =
        ⟨PrefFile.missing, PlanFile.storedOther⟩) ∧
    ((load_preferences init_state fresh_env).1.preferences =
        default_preferences ∧
      (load_preferences init_state fresh_env).2 =
        { fresh_env with pref_file := PrefFile.stored default_preferences }) ∧
    ((load_preferences init_state
        ⟨PrefFile.stored [("cuisine", some "thai")], PlanFile.missing⟩).1.preferences =
        [("cuisine", some "thai")] ∧
      (load_preferences init_state
        ⟨PrefFile.stored [("cuisine", some "thai")], PlanFile.missing⟩).2 =
        ⟨PrefFile.stored [("cuisine", some "thai")], PlanFile.missing⟩) :=
  ⟨(c9_amended_load_reset init_state fresh_env).1 (Or.inl rfl),
    (c9_amended_load_reset init_state
      ⟨PrefFile.missing, PlanFile.storedOther⟩).2.1 rfl,
    (c9_amended_load_reset init_state fresh_env).2.2.1 (Or.inl rfl),
    (c9_amended_load_reset init_state
      ⟨PrefFile.stored [("cuisine", some "thai")], PlanFile.missing⟩).2.2.2
      [("cuisine", some "thai")] rfl⟩

/-- C10: one iteration of the interactive loop behaves identically on the
raw input line and on its stripped, lowercased form: every downstream
operation only ever sees the normalized text. -/
theorem c10_main_loop_normalizes_input (model : Prompt → String)
    (db : String → List (String × ℚ)) (now raw : String) (s : GuideState)
    (e : Env) :
    main_turn model db now raw s e =
      main_turn model db now (py_lower (py_strip raw)) s e := by
  simp only [main_turn, process_idem]

end CityScape
